import Mathlib

/-!
Verification of the Verifiable State Transition Core of the axiomhive
desktop application: the linear state-space model (`src/ssm.ts`, included
at the tail of `src/inference.ts`), its cryptographic commitment and
verification, and the hash-chained audit log (`src/server.ts` and
`src/database.ts`).

Embedding conventions:
* JavaScript numbers are modelled by `ℚ` (exact arithmetic; the source
  performs plain IEEE-754 arithmetic with no rounding of its own, and the
  spec itself disclaims bit-level float reproducibility).  For the claim
  about non-finite values a second carrier `JsNum` (`Option ℚ`, `none`
  playing NaN with absorbing arithmetic) is used.
* SHA-256 is modelled by an abstract digest function; where a claim needs
  collision resistance the theorem carries an injectivity hypothesis.
  For the state transition the digest function consumes the hashed record
  directly (in the source: SHA-256 of the fixed-field-order JSON text of
  that record, which is injective on records of finite numbers).  For the
  audit log the digest function consumes a `String`, because the source
  builds the preimage by raw string concatenation and that construction
  itself is under scrutiny.
* The signature layer is modelled as it actually behaves: the
  constructor's `generateKeyPairSync('ed25519')` succeeds (a key pair is
  an identifier), but `signData` signs via `crypto.createSign('SHA256')`
  and `verifyTransition` verifies via `crypto.createVerify('SHA256')`,
  and Node's streaming Sign/Verify classes do not support Ed25519 keys
  (EdDSA has no digest-then-sign operation).  So `signData` throws on
  every call — embedded as the `signDataError` sentinel — and the
  verifier's `try/catch` makes `verifyTransition` return false for every
  record.
* Stateful methods are embedded by explicit state passing: a method that
  mutates the model returns the updated model next to its result; a
  method that throws returns `Except.error` with the thrown message.
* `Date.now()` is an ambient input, so every operation that reads the
  wall clock takes the timestamp as an explicit argument.
-/

/-! ### JSON payloads

Every audit payload the server ever logs is a flat JSON object of
strings and numbers (`{jobId, prompt}`, `{jobId, confidence}`, `{}`), so
the payload type is a one-level JSON value.  `stringify` mirrors
`JSON.stringify`: for integral numbers the decimal digits, quoted and
escaped strings, and `\x7b"k":v,...\x7d` objects with fields in insertion
order.  (Non-integral numbers are printed as `num/den`; only integral
numeric payloads appear in the theorems below, where the printing agrees
with JavaScript.) -/

inductive JsonPrim where
  | num (q : ℚ)
  | str (s : String)
deriving DecidableEq

inductive JsonValue where
  | prim (p : JsonPrim)
  | obj (fields : List (String × JsonPrim))
deriving DecidableEq

def jsStringEscape (s : String) : String :=
  s.foldl (fun acc c =>
    if c = '\"' then acc ++ "\\\""
    else if c = '\\' then acc ++ "\\\\"
    else acc.push c) ""

def qToJsonString (q : ℚ) : String :=
  if q.den = 1 then toString q.num else toString q

def JsonPrim.stringify : JsonPrim → String
  | .num q => qToJsonString q
  | .str s => "\"" ++ jsStringEscape s ++ "\""

def jsonFieldString (f : String × JsonPrim) : String :=
  "\"" ++ jsStringEscape f.1 ++ "\":" ++ f.2.stringify

def JsonValue.stringify : JsonValue → String
  | .prim p => p.stringify
  | .obj fields => "\x7b" ++ String.intercalate "," (fields.map jsonFieldString) ++ "\x7d"

/-! ### Audit log (`AxiomServer.logAuditEvent`, `AxiomDatabase`)

The `audit_logs` table is modelled as the list of rows in insertion
order; `created_at` is assumed nondecreasing along insertions, so the
`ORDER BY created_at DESC LIMIT 1` of `getLastAuditLogHash` reads the
last inserted row. -/

structure AuditLog where
  event_type : String
  event_data : String
  event_hash : String
  prev_log_hash : Option String
  created_at : ℤ
deriving DecidableEq

/-- JavaScript `s || null`: the empty string is falsy and collapses to
null.  Used in `getLastAuditLogHash` (`result?.event_hash || null`). -/
def jsOrNull (s : String) : Option String :=
  if s = "" then none else some s

/-- `AxiomDatabase.getLastAuditLogHash`: the `event_hash` of the row with
the greatest `created_at`, or null when the table is empty. -/
def getLastAuditLogHash (logs : List AuditLog) : Option String :=
  match logs.getLast? with
  | none => none
  | some r => jsOrNull r.event_hash

/-- The digest computed by `logAuditEvent`:
`sha256(eventType + dataString + (prevHash || ''))`, with `Hh` standing
for hex-encoded SHA-256.  Note the preimage is the plain unseparated
concatenation, and a null previous hash contributes the empty string. -/
def auditEventHash (Hh : String → String) (eventType : String)
    (eventData : JsonValue) (prevHash : Option String) : String :=
  Hh (eventType ++ eventData.stringify ++ prevHash.getD "")

/-- `AxiomServer.logAuditEvent` followed by `AxiomDatabase.createAuditLog`:
reads the last hash, hashes `eventType + JSON.stringify(eventData) +
(prevHash || '')`, and inserts the new row. -/
def logAuditEvent (Hh : String → String) (logs : List AuditLog)
    (eventType : String) (eventData : JsonValue) (now : ℤ) : List AuditLog :=
  logs ++ [{ event_type := eventType
           , event_data := eventData.stringify
           , event_hash := auditEventHash Hh eventType eventData (getLastAuditLogHash logs)
           , prev_log_hash := getLastAuditLogHash logs
           , created_at := now }]

/-- Claim C8 counterexample: the first entry appended to a fresh chain
has `prev_log_hash = none`, the embedding of JavaScript `null` — absence,
not a defined genesis sentinel value.  This refutes "never null or
undefined used as absence". -/
theorem first_entry_prev_hash_is_null :
    (logAuditEvent (fun s => s) [] "system_reset" (.obj []) 0).map
      (fun e => e.prev_log_hash) = [none] := by
  rfl

/-- Claim C8 as amended: the first entry appended to a fresh chain has
`previousEntryHash` null (absence); the genesis value appears only inside
the hash preimage, as the empty string. -/
theorem first_entry_prev_null_genesis_empty_string (Hh : String → String)
    (t : String) (p : JsonValue) (now : ℤ) :
    (logAuditEvent Hh [] t p now).map (fun e => e.prev_log_hash) = [none]
    ∧ (logAuditEvent Hh [] t p now).map (fun e => e.event_hash)
        = [Hh (t ++ p.stringify ++ "")] := by
  exact ⟨rfl, rfl⟩

/-- Claim C10: the audit event hash is the digest of the plain
unseparated concatenation `eventType ++ stringify(payload) ++ prevHash`
(null encoded as the empty string), so distinct triples collide: moving
the character `1` across the type/payload boundary (`("e", 12)` versus
`("e1", 2)`) yields the same preimage `"e12"`, and a genesis entry
(previous hash null) collides with an entry whose previous hash is the
empty string.  The collisions hold for every digest function because the
preimages are already equal. -/
theorem audit_hash_preimage_collision (Hh : String → String) :
    (("e", JsonValue.prim (.num 12), (none : Option String))
        ≠ ("e1", JsonValue.prim (.num 2), (none : Option String)))
    ∧ auditEventHash Hh "e" (.prim (.num 12)) none
        = auditEventHash Hh "e1" (.prim (.num 2)) none
    ∧ ((some "" : Option String) ≠ none)
    ∧ auditEventHash Hh "g" (.obj []) (some "")
        = auditEventHash Hh "g" (.obj []) none := by
  refine ⟨by decide, congrArg Hh (by decide), by decide, congrArg Hh (by decide)⟩

/-! ### State-space model (`src/ssm.ts`)

Generic over the number carrier `α` (instantiated with `ℚ`, and with
`JsNum` for the non-finite-value claim) and over an abstract digest type
`δ`.  The digest function `H : TransitionData α → δ` stands for the
source's `hashState`, i.e. hex SHA-256 of `JSON.stringify` of the object
`{prevState, nextState, input, output, timestamp}` in that fixed field
order; where a claim needs collision resistance it hypothesises that `H`
is injective (JSON.stringify is injective on such records of finite
numbers, and an ideal collision-resistant hash is injective on the
strings it is ever applied to). -/

structure SSMConfig (α : Type) where
  stateSize : ℕ
  inputSize : ℕ
  outputSize : ℕ
  A : List (List α)
  B : List (List α)
  C : List (List α)
  D : List (List α)
deriving DecidableEq

/-- The `{prevState, nextState, input, output, timestamp}` object handed
to `hashState` by `transition` and rebuilt by `verifyTransition`. -/
structure TransitionData (α : Type) where
  prevState : List α
  nextState : List α
  input : List α
  output : List α
  timestamp : ℤ
deriving DecidableEq

/-- Ed25519 key pair (`crypto.generateKeyPairSync('ed25519')` — this
generation call does succeed): one identifier stands for both PEM
halves.  The keys are never usable for signing in this program, see
`signDataError`. -/
structure KeyPair where
  seed : ℕ
deriving DecidableEq

/-- The error thrown by `signData`: it signs via
`crypto.createSign('SHA256').sign(privateKey)`, but Node's streaming
`Sign`/`Verify` classes cannot be used with the Ed25519 key generated in
the constructor — pure EdDSA has no digest-then-sign operation — so the
call throws on every invocation.  The exact message text is
environment-specific; the embedding fixes one sentinel string for it. -/
def signDataError : String :=
  "signData: SHA256 sign operation is unsupported for the ed25519 key"

/-- `StateTransition` record type as `transition` declares it.  No value
of this type is ever produced by `transition` (signing throws first);
values can still reach `verifyTransition` from storage or from the
`/api/verify` request body, with a base64 `signature` string. -/
structure StateTransition (α δ : Type) where
  prevState : List α
  nextState : List α
  input : List α
  output : List α
  timestamp : ℤ
  hash : δ
  signature : String
deriving DecidableEq

structure StateSpaceModel (α : Type) where
  config : SSMConfig α
  currentState : List α
  keyPair : KeyPair
deriving DecidableEq

/-- The constructor (`ssm.ts` lines 222-226): stores the config as given
— with no shape validation of any kind — fills the state vector with
`stateSize` zeros, and generates the key pair. -/
def StateSpaceModel.make {α : Type} [Zero α] (config : SSMConfig α)
    (kp : KeyPair) : StateSpaceModel α :=
  { config := config
  , currentState := List.replicate config.stateSize 0
  , keyPair := kp }

/-- The running sum of the source's `result[i][j] += ...` loop, starting
from the literal `0` it initialises `result[i][j]` with. -/
def msum {α : Type} [Zero α] [Add α] (l : List α) : α :=
  l.foldl (· + ·) 0

/-- `matrixMultiply`: `result[i][j] = Σ_{k < A[0].length} A[i][k]*B[k][j]`
for `i` over the rows of `A` and `j < B[0].length`.  Out-of-range indexed
reads (which in JavaScript yield `undefined` and then `NaN`) are embedded
as the `getD` defaults; the theorems below only ever evaluate them under
shape hypotheses that keep every read in range. -/
def matrixMultiply {α : Type} [Zero α] [Add α] [Mul α]
    (A B : List (List α)) : List (List α) :=
  A.map fun row =>
    (List.range (B.headD []).length).map fun j =>
      msum ((List.range (A.headD []).length).map fun k =>
        row.getD k 0 * (B.getD k []).getD j 0)

/-- `vectorToMatrix`: a vector as a column matrix. -/
def vectorToMatrix {α : Type} (v : List α) : List (List α) :=
  v.map fun x => [x]

/-- `matrixToVector`: first entry of each row (`row[0]`). -/
def matrixToVector {α : Type} [Zero α] (m : List (List α)) : List α :=
  m.map fun row => row.headD 0

/-- JavaScript `Array.prototype.map((x, i) => ...)`, index made
explicit. -/
def mapWithIndexFrom {α β : Type} (f : ℕ → α → β) : ℕ → List α → List β
  | _, [] => []
  | n, a :: as => f n a :: mapWithIndexFrom f (n + 1) as

def mapWithIndex {α β : Type} (f : ℕ → α → β) (l : List α) : List β :=
  mapWithIndexFrom f 0 l

/-- `Ax.map((row, i) => [row[0] + Bu[i][0]])` followed by
`matrixToVector`: the state-update (and output) combination step of
`transition`. -/
def combineCalc {α : Type} [Zero α] [Add α] [Mul α]
    (M N : List (List α)) (v w : List α) : List α :=
  matrixToVector (mapWithIndex
    (fun i row => [row.headD 0 + ((matrixMultiply N (vectorToMatrix w)).getD i []).headD 0])
    (matrixMultiply M (vectorToMatrix v)))

/-- `nextState = A·x + B·u` as `transition` computes it. -/
def nextStateCalc {α : Type} [Zero α] [Add α] [Mul α]
    (cfg : SSMConfig α) (state input : List α) : List α :=
  combineCalc cfg.A cfg.B state input

/-- `output = C·x + D·u` as `transition` computes it. -/
def outputCalc {α : Type} [Zero α] [Add α] [Mul α]
    (cfg : SSMConfig α) (state input : List α) : List α :=
  combineCalc cfg.C cfg.D state input

set_option linter.unusedVariables false in
/-- `StateSpaceModel.transition` (`ssm.ts` lines 283-328): the length
check throws `Input size mismatch: expected ..., got ...` with the model
untouched.  On a valid-length input, lines 288-308 all execute — the
previous-state copy, `Ax+Bu`, `Cx+Du`, and the mutation
`this.currentState = nextState` — and line 320 computes the SHA-256 hash
of the record data (`createHash` works; the digest function `H` and the
`Date.now()` timestamp feed only into that discarded local).  Then line
321 calls `signData`, which throws unconditionally (`signDataError`), so
the record built on lines 323-327 is never returned and the exception
escapes with the state already set to `nextState`.  The output vector is
computed (lines 300-305) and lost with the throw; `outputCalc` embeds
that intermediate. -/
def StateSpaceModel.transition {α δ : Type} [Zero α] [Add α] [Mul α]
    (H : TransitionData α → δ) (m : StateSpaceModel α) (input : List α)
    (timestamp : ℤ) :
    Except String (StateTransition α δ) × StateSpaceModel α :=
  if input.length ≠ m.config.inputSize then
    (Except.error ("Input size mismatch: expected " ++ toString m.config.inputSize
        ++ ", got " ++ toString input.length), m)
  else
    (Except.error signDataError,
      { m with currentState := nextStateCalc m.config m.currentState input })

set_option linter.unusedVariables false in
/-- `StateSpaceModel.verifyTransition` (`ssm.ts` lines 333-350):
recompute the hash from the record's data fields and compare with the
stored hash — if they differ, return false; otherwise
`crypto.createVerify('SHA256').verify(publicKey, ...)` throws (the
Ed25519 public key is unusable with the streaming `Verify` class) and
the surrounding `try/catch` returns false.  So both branches yield
false: verification never succeeds in this program. -/
def StateSpaceModel.verifyTransition {α δ : Type} [DecidableEq δ]
    (H : TransitionData α → δ) (m : StateSpaceModel α)
    (t : StateTransition α δ) : Bool :=
  if H ⟨t.prevState, t.nextState, t.input, t.output, t.timestamp⟩ ≠ t.hash then
    false
  else
    false

/-- `StateSpaceModel.getState`: a copy of the current state (copying is
value semantics here). -/
def StateSpaceModel.getState {α : Type} (m : StateSpaceModel α) : List α :=
  m.currentState

/-- `StateSpaceModel.reset`. -/
def StateSpaceModel.reset {α : Type} [Zero α] (m : StateSpaceModel α) :
    StateSpaceModel α :=
  { m with currentState := List.replicate m.config.stateSize 0 }

/-- `createDefaultSSMConfig` (`ssm.ts` lines 377-399). -/
def createDefaultSSMConfig : SSMConfig ℚ :=
  { stateSize := 2
  , inputSize := 1
  , outputSize := 1
  , A := [[0.95, 0.05], [0.05, 0.95]]
  , B := [[1.0], [0.5]]
  , C := [[1.0, 0.5]]
  , D := [[0.1]] }

/-- Claim C6: calling `transition` with an input vector whose length
differs from the configured `inputSize` fails with the dimension-mismatch
error (the spec's `DimensionMismatchError`; the source throws
`Error("Input size mismatch: expected ..., got ...")` before touching any
state) and leaves the model — in particular its current state — exactly
as it was. -/
theorem transition_wrong_length_error {δ : Type} (H : TransitionData ℚ → δ)
    (m : StateSpaceModel ℚ) (input : List ℚ) (ts : ℤ)
    (h : input.length ≠ m.config.inputSize) :
    m.transition H input ts
      = (Except.error ("Input size mismatch: expected " ++ toString m.config.inputSize
          ++ ", got " ++ toString input.length), m) := by
  unfold StateSpaceModel.transition
  rw [if_pos h]

/-- Witness for C6: the default model rejects an empty input vector and
is returned unchanged. -/
theorem transition_wrong_length_error_witness :
    (StateSpaceModel.make createDefaultSSMConfig ⟨0⟩).transition
        (fun d => d) ([] : List ℚ) 0
      = (Except.error ("Input size mismatch: expected "
            ++ toString (StateSpaceModel.make createDefaultSSMConfig ⟨0⟩).config.inputSize
            ++ ", got " ++ toString ([] : List ℚ).length),
         StateSpaceModel.make createDefaultSSMConfig ⟨0⟩) :=
  transition_wrong_length_error (fun d => d)
    (StateSpaceModel.make createDefaultSSMConfig ⟨0⟩) [] 0 (by decide)

/-- A deliberately ill-shaped configuration: `A` is 1×1 although
`stateSize` is 2, `B`, `C`, `D` are also inconsistent. -/
def badConfig : SSMConfig ℚ :=
  { stateSize := 2
  , inputSize := 1
  , outputSize := 1
  , A := [[1]]
  , B := [[1]]
  , C := [[1]]
  , D := [[1]] }

/-- Claim C7 counterexample: the constructor performs no shape
validation, so construction with an ill-shaped configuration does not
fail with `ConfigurationError` (nothing in the constructor can fail): it
succeeds, stores the ill-shaped matrices verbatim and zero-fills the
state.  `badConfig`'s `A` really is ill-shaped (1 row, not
`stateSize = 2`). -/
theorem construction_accepts_ill_shaped_config :
    badConfig.A.length ≠ badConfig.stateSize
    ∧ StateSpaceModel.make badConfig ⟨0⟩
        = { config := badConfig, currentState := [0, 0], keyPair := ⟨0⟩ } := by
  constructor
  · decide
  · rfl

/-- Claim C7 as amended: construction never validates shapes — for every
configuration, well-shaped or not, it succeeds, stores the configuration
verbatim and initialises the state vector to `stateSize` zeros. -/
theorem construction_never_validates (cfg : SSMConfig ℚ) (kp : KeyPair) :
    StateSpaceModel.make cfg kp
      = { config := cfg, currentState := List.replicate cfg.stateSize 0
        , keyPair := kp } :=
  rfl

lemma default_eval_ns0 : nextStateCalc createDefaultSSMConfig [0, 0] [1] = [1, 1/2] := by
  norm_num [nextStateCalc, combineCalc, matrixMultiply, vectorToMatrix,
    matrixToVector, mapWithIndex, mapWithIndexFrom, msum,
    createDefaultSSMConfig, List.range_succ]

lemma default_eval_out0 : outputCalc createDefaultSSMConfig [0, 0] [1] = [1/10] := by
  norm_num [outputCalc, combineCalc, matrixMultiply, vectorToMatrix,
    matrixToVector, mapWithIndex, mapWithIndexFrom, msum,
    createDefaultSSMConfig, List.range_succ]

lemma default_eval_ns1 :
    nextStateCalc createDefaultSSMConfig [1, 1/2] [1] = [79/40, 41/40] := by
  norm_num [nextStateCalc, combineCalc, matrixMultiply, vectorToMatrix,
    matrixToVector, mapWithIndex, mapWithIndexFrom, msum,
    createDefaultSSMConfig, List.range_succ]

lemma default_eval_out1 :
    outputCalc createDefaultSSMConfig [1, 1/2] [1] = [27/20] := by
  norm_num [outputCalc, combineCalc, matrixMultiply, vectorToMatrix,
    matrixToVector, mapWithIndex, mapWithIndexFrom, msum,
    createDefaultSSMConfig, List.range_succ]

/-- Full trace of the first default-model transition with input `[1.0]`:
the internal state is mutated to `[1.0, 0.5]` and the call then fails at
the signing step, returning no record. -/
lemma default_first_step :
    (StateSpaceModel.make createDefaultSSMConfig ⟨0⟩).transition
        (fun d : TransitionData ℚ => d) [1] 0
      = (Except.error signDataError,
         { config := createDefaultSSMConfig, currentState := [1, 1/2]
         , keyPair := ⟨0⟩ }) := by
  have h0 : (StateSpaceModel.make createDefaultSSMConfig ⟨0⟩).currentState = [0, 0] := rfl
  have hc : (StateSpaceModel.make createDefaultSSMConfig ⟨0⟩).config = createDefaultSSMConfig := rfl
  have hk : (StateSpaceModel.make createDefaultSSMConfig ⟨0⟩).keyPair = ⟨0⟩ := rfl
  simp only [StateSpaceModel.transition, h0, hc, hk]
  rw [if_neg (by decide)]
  simp only [default_eval_ns0]

/-- Full trace of the second default-model transition with input `[1.0]`
from state `[1.0, 0.5]`: the state is mutated to `[1.975, 1.025]` and
the call fails at the signing step. -/
lemma default_second_step :
    StateSpaceModel.transition (fun d : TransitionData ℚ => d)
        { config := createDefaultSSMConfig, currentState := [1, 1/2], keyPair := ⟨0⟩ }
        [1] 0
      = (Except.error signDataError,
         { config := createDefaultSSMConfig, currentState := [79/40, 41/40]
         , keyPair := ⟨0⟩ }) := by
  simp only [StateSpaceModel.transition]
  rw [if_neg (by decide)]
  simp only [default_eval_ns1]

/-- Claim C5 counterexample: with the default configuration and initial
state `[0,0]`, after a first transition with input `[1.0]` (which writes
state `[1.0, 0.5]`), the second transition with input `[1.0]` does NOT
yield the spec's `nextState = [2.025, 1.475]` (`81/40 = 2.025`,
`59/40 = 1.475`): the state it writes — the only observable trace of
`nextState`, since the call throws in `signData` before returning a
record — is `[1.975, 1.025]`. -/
theorem second_transition_spec_values_false :
    (((StateSpaceModel.make createDefaultSSMConfig ⟨0⟩).transition
        (fun d : TransitionData ℚ => d) [1] 0).2.transition
        (fun d : TransitionData ℚ => d) [1] 0).2.currentState
      ≠ [81/40, 59/40] := by
  rw [default_first_step]
  rw [show ((Except.error signDataError :
          Except String (StateTransition ℚ (TransitionData ℚ))),
        ({ config := createDefaultSSMConfig, currentState := [1, 1/2]
         , keyPair := (⟨0⟩ : KeyPair) } : StateSpaceModel ℚ)).2
      = { config := createDefaultSSMConfig, currentState := [1, 1/2], keyPair := ⟨0⟩ }
    from rfl]
  rw [default_second_step]
  show ¬([79/40, 41/40] : List ℚ) = [81/40, 59/40]
  simp only [List.cons.injEq]
  norm_num

/-- Claim C5 as amended: with the default configuration
(`A=[[0.95,0.05],[0.05,0.95]]`, `B=[[1],[0.5]]`, `C=[[1,0.5]]`,
`D=[[0.1]]`) and initial state `[0,0]`, the first transition with input
`[1.0]` computes output `[0.1]` (`1/10`) and sets the internal state to
nextState `[1.0, 0.5]` (`1/2`), then throws in `signData` without
returning a record; the second transition with input `[1.0]` computes
output `[1.35]` (`27/20`) and sets the state to nextState
`[1.975, 1.025]` (`79/40`, `41/40`), likewise throwing.  The output
values are the pre-throw intermediates of lines 300-305, embedded by
`outputCalc`. -/
theorem default_ssm_two_transitions :
    (StateSpaceModel.make createDefaultSSMConfig ⟨0⟩).transition
        (fun d : TransitionData ℚ => d) [1] 0
      = (Except.error signDataError,
         { config := createDefaultSSMConfig, currentState := [1, 1/2], keyPair := ⟨0⟩ })
    ∧ outputCalc createDefaultSSMConfig [0, 0] [1] = [1/10]
    ∧ StateSpaceModel.transition (fun d : TransitionData ℚ => d)
        { config := createDefaultSSMConfig, currentState := [1, 1/2], keyPair := ⟨0⟩ }
        [1] 0
      = (Except.error signDataError,
         { config := createDefaultSSMConfig, currentState := [79/40, 41/40], keyPair := ⟨0⟩ })
    ∧ outputCalc createDefaultSSMConfig [1, 1/2] [1] = [27/20] :=
  ⟨default_first_step, default_eval_out0, default_second_step, default_eval_out1⟩

/-! ### Row-by-column matrix-vector arithmetic (spec side)

`dotProduct`, `matVec` and `vecAdd` are the spec's "standard
row-by-column dot products"; claim C1 compares `transition`'s loops
against them. -/

def dotProduct (r v : List ℚ) : ℚ :=
  msum (List.zipWith (· * ·) r v)

def matVec (M : List (List ℚ)) (v : List ℚ) : List ℚ :=
  M.map fun r => dotProduct r v

def vecAdd (a b : List ℚ) : List ℚ :=
  List.zipWith (· + ·) a b

lemma foldl_add_shift (c : ℚ) (l : List ℚ) :
    l.foldl (· + ·) c = c + l.foldl (· + ·) 0 := by
  induction l generalizing c with
  | nil => simp
  | cons a l ih =>
      show l.foldl (· + ·) (c + a) = c + l.foldl (· + ·) (0 + a)
      rw [ih (c + a), ih (0 + a)]
      ring

lemma msum_cons (a : ℚ) (l : List ℚ) : msum (a :: l) = a + msum l := by
  show l.foldl (· + ·) (0 + a) = a + msum l
  rw [foldl_add_shift (0 + a) l, zero_add]
  rfl

lemma msum_map_zero {β : Type} (xs : List β) :
    msum (xs.map fun _ => (0 : ℚ)) = 0 := by
  induction xs with
  | nil => rfl
  | cons x xs ih => rw [List.map_cons, msum_cons, ih, add_zero]

/-- Each summand of the `matrixMultiply` inner loop over a column vector
equals the corresponding entry of the zipped product list. -/
lemma term_eq_zip (r v : List ℚ) (k : ℕ) :
    r.getD k 0 * ((vectorToMatrix v).getD k []).getD 0 0
      = (List.zipWith (· * ·) r v).getD k 0 := by
  induction r generalizing v k with
  | nil => simp
  | cons a r ih =>
      cases v with
      | nil => simp [vectorToMatrix]
      | cons b v =>
          cases k with
          | zero => simp [vectorToMatrix]
          | succ k =>
              simp only [vectorToMatrix, List.map_cons, List.getD_cons_succ,
                List.zipWith_cons_cons]
              exact ih v k

lemma msum_range_getD (l : List ℚ) (m : ℕ) (h : l.length ≤ m) :
    msum ((List.range m).map fun k => l.getD k 0) = msum l := by
  induction l generalizing m with
  | nil =>
      simp only [List.getD_nil]
      exact msum_map_zero (List.range m)
  | cons a l ih =>
      cases m with
      | zero => exact absurd h (by simp)
      | succ m =>
          rw [List.range_succ_eq_map, List.map_cons, List.map_map]
          rw [msum_cons, msum_cons]
          congr 1
          · exact ih m (Nat.succ_le_succ_iff.mp h)

/-- Head of a `matrixMultiply` row against a column vector: the
row-by-column dot product, whatever the (sufficiently large) inner loop
bound is.  For `v = []` the row of the product is empty and its default
head `0` coincides with the empty dot product. -/
lemma mmRow_head (r v : List ℚ) (colsA : ℕ) (hr : r.length ≤ colsA) :
    ((List.range ((vectorToMatrix v).headD []).length).map fun j =>
        msum ((List.range colsA).map fun k =>
          r.getD k 0 * ((vectorToMatrix v).getD k []).getD j 0)).headD 0
      = dotProduct r v := by
  cases v with
  | nil =>
      simp only [vectorToMatrix, List.map_nil, List.headD_nil, List.length_nil,
        List.range_zero]
      show (0 : ℚ) = dotProduct r []
      simp [dotProduct, msum]
  | cons b v =>
      have h1 : ((vectorToMatrix (b :: v)).headD []).length = 1 := rfl
      rw [h1]
      show msum ((List.range colsA).map fun k =>
          r.getD k 0 * ((vectorToMatrix (b :: v)).getD k []).getD 0 0) = dotProduct r (b :: v)
      have h2 : ((List.range colsA).map fun k =>
          r.getD k 0 * ((vectorToMatrix (b :: v)).getD k []).getD 0 0)
          = (List.range colsA).map fun k => (List.zipWith (· * ·) r (b :: v)).getD k 0 := by
        refine List.map_congr_left ?_
        intro k _
        exact term_eq_zip r (b :: v) k
      rw [h2]
      refine msum_range_getD _ colsA ?_
      calc (List.zipWith (· * ·) r (b :: v)).length
          = min r.length (b :: v).length := List.length_zipWith _ _ _
        _ ≤ r.length := Nat.min_le_left _ _
        _ ≤ colsA := hr

lemma map_mapWithIndexFrom {α β γ : Type} (g : β → γ) (f : ℕ → α → β)
    (n : ℕ) (l : List α) :
    (mapWithIndexFrom f n l).map g = mapWithIndexFrom (fun i a => g (f i a)) n l := by
  induction l generalizing n with
  | nil => rfl
  | cons a l ih => simp only [mapWithIndexFrom, List.map_cons, ih]

lemma mapWithIndexFrom_getD_shift {α β γ : Type} (F : α → β → γ) (d : β)
    (b : β) (bs : List β) (l : List α) (n : ℕ) :
    mapWithIndexFrom (fun i a => F a ((b :: bs).getD i d)) (n + 1) l
      = mapWithIndexFrom (fun i a => F a (bs.getD i d)) n l := by
  induction l generalizing n with
  | nil => rfl
  | cons a l ih =>
      simp only [mapWithIndexFrom, List.getD_cons_succ]
      rw [ih]

lemma mapWithIndex_getD_zip {α β γ : Type} (F : α → β → γ) (d : β)
    (l1 : List α) (l2 : List β) (h : l1.length = l2.length) :
    mapWithIndex (fun i a => F a (l2.getD i d)) l1 = List.zipWith F l1 l2 := by
  induction l1 generalizing l2 with
  | nil => rfl
  | cons a l1 ih =>
      cases l2 with
      | nil => exact absurd h (by simp)
      | cons b l2 =>
          show (fun i a => F a ((b :: l2).getD i d)) 0 a ::
              mapWithIndexFrom (fun i a => F a ((b :: l2).getD i d)) 1 l1
            = F a b :: List.zipWith F l1 l2
          rw [mapWithIndexFrom_getD_shift]
          exact congrArg (F a b :: ·) (ih l2 (Nat.succ_injective h))

lemma zipWith_congr_mem {α β γ : Type} (f g : α → β → γ) (l1 : List α)
    (l2 : List β) (h : ∀ a ∈ l1, ∀ b ∈ l2, f a b = g a b) :
    List.zipWith f l1 l2 = List.zipWith g l1 l2 := by
  induction l1 generalizing l2 with
  | nil => rfl
  | cons a l1 ih =>
      cases l2 with
      | nil => rfl
      | cons b l2 =>
          simp only [List.zipWith_cons_cons]
          refine congrArg₂ (· :: ·) (h a (by simp) b (by simp)) ?_
          exact ih l2 fun x hx y hy => h x (by simp [hx]) y (by simp [hy])

lemma rows_le_headD (M : List (List ℚ)) (n : ℕ)
    (h : ∀ r ∈ M, r.length = n) : ∀ r ∈ M, r.length ≤ (M.headD []).length := by
  intro r hr
  cases M with
  | nil => exact absurd hr (List.not_mem_nil r)
  | cons a as =>
      simp only [List.headD_cons]
      rw [h r hr, h a (List.mem_cons_self a as)]

/-- The combination step of `transition`
(`Ax.map((row,i) => [row[0]+Bu[i][0]])` then `matrixToVector`) computes
`M·v + N·w` by row-by-column dot products whenever the rows of `M` and
`N` are no longer than the first row (so the inner loop bound covers
them) and `M` and `N` have the same number of rows. -/
lemma combineCalc_eq (M N : List (List ℚ)) (v w : List ℚ)
    (hM : ∀ r ∈ M, r.length ≤ (M.headD []).length)
    (hN : ∀ r ∈ N, r.length ≤ (N.headD []).length)
    (hlen : M.length = N.length) :
    combineCalc M N v w = vecAdd (matVec M v) (matVec N w) := by
  unfold combineCalc matrixToVector mapWithIndex
  rw [map_mapWithIndexFrom]
  have hsingle : (fun i row => ([row.headD 0 +
        ((matrixMultiply N (vectorToMatrix w)).getD i []).headD 0] : List ℚ).headD 0)
      = fun i (row : List ℚ) => row.headD 0 +
        ((matrixMultiply N (vectorToMatrix w)).getD i []).headD 0 := rfl
  rw [hsingle]
  have hzip := mapWithIndex_getD_zip
    (fun (row : List ℚ) (bu : List ℚ) => row.headD 0 + bu.headD 0) []
    (matrixMultiply M (vectorToMatrix v)) (matrixMultiply N (vectorToMatrix w))
    (by simp [matrixMultiply, hlen])
  rw [show mapWithIndexFrom (fun i row => row.headD 0 +
        ((matrixMultiply N (vectorToMatrix w)).getD i []).headD 0) 0
        (matrixMultiply M (vectorToMatrix v))
      = mapWithIndex (fun i (row : List ℚ) =>
          (fun (row : List ℚ) (bu : List ℚ) => row.headD 0 + bu.headD 0) row
            ((matrixMultiply N (vectorToMatrix w)).getD i [])) 
          (matrixMultiply M (vectorToMatrix v)) from rfl]
  rw [hzip]
  show List.zipWith _ ((M.map _)) ((N.map _)) = _
  rw [List.zipWith_map_left, List.zipWith_map_right]
  rw [zipWith_congr_mem _
      (fun (rA rB : List ℚ) => dotProduct rA v + dotProduct rB w) M N ?_]
  · unfold vecAdd matVec
    rw [List.zipWith_map_left, List.zipWith_map_right]
  · intro rA hA rB hB
    rw [mmRow_head rA v _ (hM rA hA), mmRow_head rB w _ (hN rB hB)]

/-- Claim C1 (the code's actual behaviour at the failing input): for
every model satisfying the data-model shape invariants and every input
of the configured length, `transition` does compute
`nextState = A·x + B·u` by row-by-column dot products from the pre-call
state and writes it to the internal state, and it computes
`output = C·x + D·u` the same way (the `outputCalc` intermediate of
lines 300-305) — but it then throws in `signData` (`createSign('SHA256')`
with the Ed25519 key) and never returns the `StateTransition` record the
claim describes. -/
theorem transition_throws_after_mutation {δ : Type} (H : TransitionData ℚ → δ)
    (m : StateSpaceModel ℚ) (input : List ℚ) (ts : ℤ)
    (hA : m.config.A.length = m.config.stateSize)
    (hArows : ∀ r ∈ m.config.A, r.length = m.config.stateSize)
    (hB : m.config.B.length = m.config.stateSize)
    (hBrows : ∀ r ∈ m.config.B, r.length = m.config.inputSize)
    (hC : m.config.C.length = m.config.outputSize)
    (hCrows : ∀ r ∈ m.config.C, r.length = m.config.stateSize)
    (hD : m.config.D.length = m.config.outputSize)
    (hDrows : ∀ r ∈ m.config.D, r.length = m.config.inputSize)
    (hin : input.length = m.config.inputSize) :
    m.transition H input ts
      = (Except.error signDataError,
         { m with currentState :=
             vecAdd (matVec m.config.A m.currentState) (matVec m.config.B input) })
    ∧ outputCalc m.config m.currentState input
      = vecAdd (matVec m.config.C m.currentState) (matVec m.config.D input) := by
  have hns : nextStateCalc m.config m.currentState input
      = vecAdd (matVec m.config.A m.currentState) (matVec m.config.B input) :=
    combineCalc_eq _ _ _ _ (rows_le_headD _ _ hArows) (rows_le_headD _ _ hBrows)
      ((hA.trans hB.symm))
  have hout : outputCalc m.config m.currentState input
      = vecAdd (matVec m.config.C m.currentState) (matVec m.config.D input) :=
    combineCalc_eq _ _ _ _ (rows_le_headD _ _ hCrows) (rows_le_headD _ _ hDrows)
      ((hC.trans hD.symm))
  refine ⟨?_, hout⟩
  simp only [StateSpaceModel.transition]
  rw [if_neg (by rw [hin]; exact fun h => h rfl)]
  simp only [hns]

/-- Witness for the C1 evaluation theorem at the default
configuration. -/
theorem transition_throws_after_mutation_witness :
    (StateSpaceModel.make createDefaultSSMConfig ⟨0⟩).transition
        (fun d : TransitionData ℚ => d) [1] 0
      = (Except.error signDataError,
         { config := createDefaultSSMConfig
         , currentState := vecAdd (matVec createDefaultSSMConfig.A [0, 0])
             (matVec createDefaultSSMConfig.B [1])
         , keyPair := ⟨0⟩ })
    ∧ outputCalc createDefaultSSMConfig [0, 0] [1]
      = vecAdd (matVec createDefaultSSMConfig.C [0, 0])
          (matVec createDefaultSSMConfig.D [1]) :=
  transition_throws_after_mutation (fun d => d)
    (StateSpaceModel.make createDefaultSSMConfig ⟨0⟩) [1] 0
    (by decide) (by decide) (by decide) (by decide) (by decide) (by decide)
    (by decide) (by decide) (by decide)

/-! ### Replay determinism -/

/-- Drive the model through a list of inputs, recording each call's
outcome and continuing from the mutated model — the per-call `try/catch`
discipline of the server's request handler.  The wall clock is an
arbitrary stream read at successive ticks. -/
def runTransitions {δ : Type} (H : TransitionData ℚ → δ) (m : StateSpaceModel ℚ)
    (clock : ℕ → ℤ) (k : ℕ) :
    List (List ℚ) → List (Except String (StateTransition ℚ δ))
  | [] => []
  | u :: rest =>
      (m.transition H u (clock k)).1 ::
        runTransitions H (m.transition H u (clock k)).2 clock (k + 1) rest

/-- A single transition outcome does not depend on the wall clock: the
timestamp feeds only the discarded hash local before the signing
throw. -/
lemma transition_ts_irrelevant {δ : Type} (H : TransitionData ℚ → δ)
    (m : StateSpaceModel ℚ) (u : List ℚ) (t₁ t₂ : ℤ) :
    m.transition H u t₁ = m.transition H u t₂ := rfl

/-- Claim C2 (the code's actual behaviour at the failing input): replays
of a fixed input sequence from a fixed model are outcome-deterministic
and clock-independent — but they produce no transition records at all:
already the replay of the single valid input `[1.0]` from the default
model yields only the signing-step error, so there are no
(previousState, nextState, output) record sequences to compare. -/
theorem transition_replay_no_records {δ : Type} (H : TransitionData ℚ → δ)
    (m : StateSpaceModel ℚ) (inputs : List (List ℚ))
    (clock₁ clock₂ : ℕ → ℤ) (k₁ k₂ : ℕ) :
    runTransitions H m clock₁ k₁ inputs = runTransitions H m clock₂ k₂ inputs
    ∧ runTransitions (fun d : TransitionData ℚ => d)
        (StateSpaceModel.make createDefaultSSMConfig ⟨0⟩) clock₁ k₁ [[1]]
      = [Except.error signDataError] := by
  constructor
  · induction inputs generalizing m k₁ k₂ with
    | nil => rfl
    | cons u rest ih =>
        simp only [runTransitions]
        rw [transition_ts_irrelevant H m u (clock₁ k₁) (clock₂ k₂)]
        exact congrArg _ (ih _ _ _)
  · simp only [runTransitions]
    rw [transition_ts_irrelevant (fun d : TransitionData ℚ => d)
        (StateSpaceModel.make createDefaultSSMConfig ⟨0⟩) [1] (clock₁ k₁) 0,
      default_first_step]

/-! ### Commitment integrity -/

/-- Claim C3 (the code's actual behaviour): `verifyTransition` returns
false for every record — a hash mismatch returns false directly, and on
a hash match `createVerify('SHA256')` throws on the Ed25519 public key
into the `try/catch`, which returns false — and no commitment is ever
produced in the first place, because `transition` throws in `signData`
(shown at the concrete failing input: the default model with the valid
input `[1.0]`).  So `verify(R, commit(R), pk) = true` is unattainable:
no run of the program commits, and no verification succeeds. -/
theorem verify_always_false_no_commitment {δ : Type} [DecidableEq δ]
    (H : TransitionData ℚ → δ) (m : StateSpaceModel ℚ)
    (t : StateTransition ℚ δ) :
    m.verifyTransition H t = false
    ∧ ((StateSpaceModel.make createDefaultSSMConfig ⟨0⟩).transition
        (fun d : TransitionData ℚ => d) [1] 0).1 = Except.error signDataError := by
  constructor
  · unfold StateSpaceModel.verifyTransition
    split
    · rfl
    · rfl
  · rw [default_first_step]

/-! ### Non-finite values

`JsNum` refines the carrier for the one claim about NaN/∞: a JavaScript
number is either finite (`fin q`) or non-finite (`nan`), and arithmetic
with a non-finite operand is non-finite (exact for NaN, which is the
witness value used below).  The source has no finiteness check anywhere:
`transition` computes straight through, writes the NaN-bearing next
state into the model, computes the hash of the NaN-bearing record
(`JSON.stringify` turns NaN/∞ into `null`, `createHash` accepts that),
and only then fails — in `signData`, for every input alike. -/

structure JsNum where
  val : Option ℚ
deriving DecidableEq

def JsNum.nan : JsNum := ⟨none⟩

def JsNum.fin (q : ℚ) : JsNum := ⟨some q⟩

def jsAdd : JsNum → JsNum → JsNum
  | ⟨some a⟩, ⟨some b⟩ => ⟨some (a + b)⟩
  | _, _ => ⟨none⟩

def jsMul : JsNum → JsNum → JsNum
  | ⟨some a⟩, ⟨some b⟩ => ⟨some (a * b)⟩
  | _, _ => ⟨none⟩

instance : Zero JsNum := ⟨⟨some 0⟩⟩

instance : Add JsNum := ⟨jsAdd⟩

instance : Mul JsNum := ⟨jsMul⟩

def liftMatrix (M : List (List ℚ)) : List (List JsNum) :=
  M.map fun r => r.map JsNum.fin

/-- The same configuration viewed over the NaN-aware carrier. -/
def liftConfig (cfg : SSMConfig ℚ) : SSMConfig JsNum :=
  { stateSize := cfg.stateSize
  , inputSize := cfg.inputSize
  , outputSize := cfg.outputSize
  , A := liftMatrix cfg.A
  , B := liftMatrix cfg.B
  , C := liftMatrix cfg.C
  , D := liftMatrix cfg.D }

/-- Claim C9 counterexample: `transition` on the default model called
with the NaN input vector `[NaN]` (correct length) is not rejected with
any serialization error at the boundary — NaN passes the only input
check (the length test), propagates through the state update into the
model's internal state `[NaN, NaN]` (and into the record data that gets
hashed, lines 312-320), and the call then fails with exactly the same
unconditional signing-step error as a finite input such as `[1.0]`:
the failure has nothing to do with NaN. -/
theorem transition_accepts_nan_input :
    (StateSpaceModel.make (liftConfig createDefaultSSMConfig) ⟨0⟩).transition
        (fun d : TransitionData JsNum => d) [JsNum.nan] 0
      = (Except.error signDataError,
         { config := liftConfig createDefaultSSMConfig
         , currentState := [JsNum.nan, JsNum.nan]
         , keyPair := ⟨0⟩ })
    ∧ ((StateSpaceModel.make (liftConfig createDefaultSSMConfig) ⟨0⟩).transition
        (fun d : TransitionData JsNum => d) [JsNum.fin 1] 0).1
      = Except.error signDataError :=
  ⟨rfl, rfl⟩

/-- Claim C9 as amended: no finiteness validation exists at the
transition or hashing boundary — every input vector of the configured
length, non-finite entries included, passes the length check, flows
verbatim into the state-update computation (whose result, non-finite
values and all, is written to the internal state), and the call then
fails with the unconditional Ed25519 signing error, identical for finite
and non-finite inputs, never with a `SerializationError`. -/
theorem transition_no_finiteness_check (input : List JsNum) (ts : ℤ)
    (h : input.length = (liftConfig createDefaultSSMConfig).inputSize) :
    (StateSpaceModel.make (liftConfig createDefaultSSMConfig) ⟨0⟩).transition
        (fun d : TransitionData JsNum => d) input ts
      = (Except.error signDataError,
         { config := liftConfig createDefaultSSMConfig
         , currentState := nextStateCalc (liftConfig createDefaultSSMConfig)
             (List.replicate 2 0) input
         , keyPair := ⟨0⟩ }) := by
  simp only [StateSpaceModel.transition]
  rw [if_neg (fun hc => hc (h.trans rfl))]
  rfl

/-- Witness for the amended C9 at the NaN input. -/
theorem transition_no_finiteness_check_witness :
    (StateSpaceModel.make (liftConfig createDefaultSSMConfig) ⟨0⟩).transition
        (fun d : TransitionData JsNum => d) [JsNum.nan] 0
      = (Except.error signDataError,
         { config := liftConfig createDefaultSSMConfig
         , currentState := nextStateCalc (liftConfig createDefaultSSMConfig)
             (List.replicate 2 0) [JsNum.nan]
         , keyPair := ⟨0⟩ }) :=
  transition_no_finiteness_check [JsNum.nan] 0 rfl
